import Mathlib

/-!
Verification model of `downloader.py`, a batch PubMed abstract downloader.

Modelling conventions:
- Python strings are Lean `String`s; for `strip_bom`, where the reasoning is
  character-level, a line is a `List Char`.
- A CSV row produced by `csv.DictReader` is an insertion-ordered dictionary,
  modelled as an association list `List (String × String)`.
- The HTTP transport underneath `requests`/`urllib3` is an oracle
  `Nat → TransportAttempt`: the outcome of each physical attempt in order.
- Fallible Python code is modelled in `Except PyExn`: a `.error` value is an
  uncaught Python exception propagating out of the modelled function.

External library semantics relevant to the model (these are the documented,
stable behaviours of `requests` and `urllib3`, which `downloader.py` configures
via `sane_retry` / `with_http_retry`):
- `urllib3.util.Retry` is constructed by `sane_retry` with
  `total = read = connect = retries` and with `status = None`, so retries
  forced by `status_forcelist` are counted against `total`; since `total` is
  decremented on every retry of any kind and equals the other counters, the
  `total` budget is the binding one for every attempt sequence.
- `Retry.RETRY_AFTER_STATUS_CODES` is `{413, 429, 503}` and
  `Retry.DEFAULT_ALLOWED_METHODS` is
  `{HEAD, GET, PUT, DELETE, OPTIONS, TRACE}`.
- With the default `raise_on_status = True` (not overridden by `sane_retry`),
  exhausting the budget on forcelisted statuses raises `MaxRetryError` with a
  `ResponseError` reason, which `requests.adapters.HTTPAdapter.send` re-raises
  as `requests.exceptions.RetryError`; exhausting it on connection-level
  failures is re-raised as `requests.exceptions.ConnectionError`. Neither
  class is a subclass of `requests.exceptions.HTTPError`, which
  `response.raise_for_status()` raises for statuses in [400, 600).
-/

/-- Python exceptions that can cross the boundaries modelled here:
`KeyError` from `row["PMID"]`, and the two `requests` exceptions that
`session.get` raises on retry exhaustion (`ConnectionError` for
connection-level failures, `RetryError` for forcelisted-status exhaustion).
`HTTPError` does not appear: every `raise_for_status` call site catches it. -/
inductive PyExn where
  | keyError
  | connectionError
  | retryError
  deriving DecidableEq

/-- Outcome of one physical attempt by the HTTP transport: either a
connection-level failure (connect/read error) or an HTTP response. -/
inductive TransportAttempt where
  | failure
  | response (status : Nat) (body : String)

/-- A transport behaviour: the outcome of the i-th physical attempt. -/
abbrev Transport := Nat → TransportAttempt

/-- Outcome of `session.get` as seen by the caller: a final response, or an
uncaught exception. -/
inductive GetOutcome where
  | ok (status : Nat) (body : String)
  | raises (e : PyExn)
  deriving DecidableEq

/-- urllib3 constant `Retry.RETRY_AFTER_STATUS_CODES`, the set
`sane_retry` unions the caller's additional status codes with. -/
def RETRY_AFTER_STATUS_CODES : Finset Nat := {413, 429, 503}

/-- urllib3 constant `Retry.DEFAULT_ALLOWED_METHODS`. -/
def DEFAULT_ALLOWED_METHODS : Finset String :=
  {"HEAD", "GET", "PUT", "DELETE", "OPTIONS", "TRACE"}

/-- The fields of `urllib3.util.Retry` that `sane_retry` sets and that the
modelled behaviour depends on. `backoff_factor` is omitted: it only controls
real-time sleeping between attempts, which no verified property mentions. -/
structure RetryPolicy where
  total : Nat
  read : Nat
  connect : Nat
  status_forcelist : Finset Nat
  allowed_methods : Finset String
  deriving DecidableEq

/-- Default value of the `additional_status_forcelist` argument of
`sane_retry`: `{INTERNAL_SERVER_ERROR, BAD_GATEWAY, SERVICE_UNAVAILABLE,
GATEWAY_TIMEOUT}`. It is a default argument, not a constant merged in
unconditionally. -/
def DEFAULT_ADDITIONAL_STATUS_FORCELIST : Finset Nat := {500, 502, 503, 504}

/-- Model of `sane_retry` from `downloader.py`: unions the caller's additions
with the urllib3 base sets and sets all three retry counters to `retries`. -/
def sane_retry (retries : Nat) (additional_status_forcelist : Finset Nat)
    (additional_allowed_methods : Finset String) : RetryPolicy :=
  { total := retries
    read := retries
    connect := retries
    status_forcelist := RETRY_AFTER_STATUS_CODES ∪ additional_status_forcelist
    allowed_methods := DEFAULT_ALLOWED_METHODS ∪ additional_allowed_methods }

/-- The policy `sane_retry()` builds when every argument is left at its
default, as `requests_retry_session` does. -/
def default_sane_retry : RetryPolicy :=
  sane_retry 4 DEFAULT_ADDITIONAL_STATUS_FORCELIST ∅

/-- Retry loop of urllib3 as driven by one `session.get`, with the budget
`remaining` (initially `total`; see the module comment for why `total` is the
binding counter) and `i` the index of the next physical attempt. A forcelisted
status retries only if the method (always GET here) is allowed; exhaustion
raises `ConnectionError` / `RetryError` per the requests wrapping. Returns the
outcome together with the number of physical attempts made. -/
def sessionGetGo (pol : RetryPolicy) (transport : Transport) :
    Nat → Nat → GetOutcome × Nat
  | 0, i =>
    match transport i with
    | .failure => (.raises .connectionError, i + 1)
    | .response s b =>
      if s ∈ pol.status_forcelist ∧ "GET" ∈ pol.allowed_methods then
        (.raises .retryError, i + 1)
      else (.ok s b, i + 1)
  | n + 1, i =>
    match transport i with
    | .failure => sessionGetGo pol transport n (i + 1)
    | .response s b =>
      if s ∈ pol.status_forcelist ∧ "GET" ∈ pol.allowed_methods then
        sessionGetGo pol transport n (i + 1)
      else (.ok s b, i + 1)

/-- One `session.get` call on a session mounted via `with_http_retry` with the
policy `pol`: outcome and number of physical attempts consumed. -/
def sessionGet (pol : RetryPolicy) (transport : Transport) : GetOutcome × Nat :=
  sessionGetGo pol transport pol.total 0

/-- Model of `_fetch_pmid`: perform the GET; `raise_for_status` raises
`HTTPError` exactly for statuses in [400, 600), which is caught and turned
into `None`; an exception from `session.get` itself is not caught. -/
def fetch_pmid (pol : RetryPolicy) (transport : Transport) :
    Except PyExn (Option String) :=
  match (sessionGet pol transport).1 with
  | .raises e => .error e
  | .ok s b => if 400 ≤ s ∧ s < 600 then .ok none else .ok (some b)

/-- Sentinel returned when the page could not be downloaded. -/
def couldNotDownloadPage : String :=
  "Abstract download failed: could not download page"

/-- Sentinel returned when the page downloaded but held no abstract. -/
def abstractNotFoundOnPage : String :=
  "Abstract download failed: abstract not found on page"

/-- Model of `_get_pmid_abstract`. The BeautifulSoup-based `_html_to_abstract`
is the external text-extraction capability, passed in as `html_to_abstract`:
given the page body it yields the abstract section's text, or `none` when no
`div` with id `abstract` exists. -/
def get_pmid_abstract (html_to_abstract : String → Option String)
    (pol : RetryPolicy) (transport : Transport) : Except PyExn String :=
  match fetch_pmid pol transport with
  | .error e => .error e
  | .ok none => .ok couldNotDownloadPage
  | .ok (some html) =>
    match html_to_abstract html with
    | none => .ok abstractNotFoundOnPage
    | some abstract => .ok abstract

/-- A CSV row: an insertion-ordered dictionary from field name to value. -/
abbrev Row := List (String × String)

/-- The appended column's name, `ABSTRACT_FIELDNAME` in `downloader.py`. -/
def ABSTRACT_FIELDNAME : String := "abstract"

/-- Dictionary lookup `row[key]` / `row.get(key)`: the value at the first
(in a Python dict, only) occurrence of `key`. -/
def dictGet : Row → String → Option String
  | [], _ => none
  | (k, v) :: rest, key => if k = key then some v else dictGet rest key

/-- Whether the dictionary has the key. -/
def containsKey (row : Row) (key : String) : Bool :=
  row.any (fun p => p.1 = key)

/-- Python dict assignment `row[key] = v` on an insertion-ordered dict: an
existing key keeps its position and gets the new value; a new key is appended
at the end. -/
def dictSet (row : Row) (key v : String) : Row :=
  if containsKey row key then
    row.map (fun p => if p.1 = key then (key, v) else p)
  else row ++ [(key, v)]

/-- Model of `update_row`: read `row["PMID"]` (raising `KeyError` when
absent), fetch the abstract for it, and store it under `ABSTRACT_FIELDNAME`.
`transports` gives the transport behaviour serving each pmid's URL. -/
def update_row (html_to_abstract : String → Option String) (pol : RetryPolicy)
    (transports : String → Transport) (row : Row) : Except PyExn Row :=
  match dictGet row "PMID" with
  | none => .error .keyError
  | some pmid =>
    match get_pmid_abstract html_to_abstract pol (transports pmid) with
    | .error e => .error e
    | .ok abstract => .ok (dictSet row ABSTRACT_FIELDNAME abstract)

/-- The row loop of `main`: update and write rows one at a time, in order.
Returns the rows written to the sink before any uncaught exception, paired
with the exception that aborted the run, if any. -/
def runPipeline (ur : Row → Except PyExn Row) : List Row → List Row × Option PyExn
  | [] => ([], none)
  | row :: rest =>
    match ur row with
    | .error e => ([], some e)
    | .ok row' =>
      match runPipeline ur rest with
      | (written, err) => (row' :: written, err)

/-- Header construction in `main`: `list(reader.fieldnames)` with
`ABSTRACT_FIELDNAME` appended. -/
def outputFieldnames (input_fieldnames : List String) : List String :=
  input_fieldnames ++ [ABSTRACT_FIELDNAME]

/-- Serialization of one row by `csv.DictWriter`: one cell per header field,
in header order, with the default `restval` of the empty string for a field
the row lacks. -/
def writeRow (fieldnames : List String) (row : Row) : List String :=
  fieldnames.map (fun f => (dictGet row f).getD "")

/-- The single character `codecs.BOM_UTF8.decode()`, U+FEFF. -/
def BOM_UTF8_decoded : Char := Char.ofNat 0xFEFF

/-- Model of `strip_bom` over a line as a character list:
`line[1:] if line.startswith(codecs.BOM_UTF8.decode()) else line`. -/
def strip_bom : List Char → List Char
  | [] => []
  | c :: rest => if c = BOM_UTF8_decoded then rest else c :: rest

/-! ### Helper lemmas about the ordered-dictionary model -/

lemma dictGet_map_replace (row : Row) (key v : String)
    (h : containsKey row key = true) :
    dictGet (row.map (fun p => if p.1 = key then (key, v) else p)) key = some v := by
  induction row with
  | nil => simp [containsKey] at h
  | cons p rest ih =>
    obtain ⟨k, w⟩ := p
    by_cases hp : k = key
    · subst hp
      have hf : (fun p : String × String => if p.1 = k then (k, v) else p) (k, w)
          = (k, v) := by simp
      simp only [List.map_cons, hf]
      simp [dictGet]
    · have h' : containsKey rest key = true := by
        simp [containsKey] at h ⊢
        rcases h with h | h
        · exact absurd h hp
        · exact h
      have hf : (fun p : String × String => if p.1 = key then (key, v) else p) (k, w)
          = (k, w) := by simp [hp]
      simp only [List.map_cons, hf]
      simp [dictGet, hp, ih h']

lemma dictGet_append_missing (row : Row) (key v : String)
    (h : containsKey row key = false) :
    dictGet (row ++ [(key, v)]) key = some v := by
  induction row with
  | nil => simp [dictGet]
  | cons p rest ih =>
    obtain ⟨k, w⟩ := p
    simp [containsKey] at h
    have hrest : containsKey rest key = false := by
      simp [containsKey]
      exact h.2
    simp [dictGet, h.1, ih hrest]

lemma dictGet_dictSet (row : Row) (key v : String) :
    dictGet (dictSet row key v) key = some v := by
  unfold dictSet
  by_cases h : containsKey row key = true
  · simp [h, dictGet_map_replace row key v h]
  · have h' : containsKey row key = false := by
      cases hc : containsKey row key
      · rfl
      · exact absurd hc h
    simp [h', dictGet_append_missing row key v h']

lemma update_row_ok_elim (e : String → Option String) (pol : RetryPolicy)
    (tr : String → Transport) (row r' : Row)
    (h : update_row e pol tr row = .ok r') :
    ∃ pmid a, dictGet row "PMID" = some pmid ∧
      get_pmid_abstract e pol (tr pmid) = .ok a ∧
      r' = dictSet row ABSTRACT_FIELDNAME a := by
  unfold update_row at h
  cases hp : dictGet row "PMID" with
  | none => simp only [hp] at h; simp at h
  | some pmid =>
    simp only [hp] at h
    cases hg : get_pmid_abstract e pol (tr pmid) with
    | error e' => simp only [hg] at h; simp at h
    | ok a =>
      simp only [hg] at h
      simp at h
      exact ⟨pmid, a, rfl, hg, h.symm⟩

/-! ### Claim theorems -/

/-- C1: the claim says `_get_pmid_abstract` is total for every behaviour of
the HTTP transport. The code only catches `HTTPError`, so a transport whose
attempts all fail at connection level makes `session.get` raise
`ConnectionError`, which propagates out of `_get_pmid_abstract` and aborts the
whole batch: here a two-row batch dies on its first row with no output. -/
theorem c1_transport_exception_aborts_batch :
    get_pmid_abstract (fun _ => none) default_sane_retry (fun _ => .failure)
      = .error .connectionError ∧
    runPipeline
      (update_row (fun _ => none) default_sane_retry (fun _ => fun _ => .failure))
      [[("PMID", "111")], [("PMID", "222")]]
      = ([], some PyExn.connectionError) :=
  ⟨rfl, rfl⟩

/-- C3 counterexample: the claim says customization can only add to the
default policy's status set, but `{500, 502, 503, 504}` is merely the default
value of the `additional_status_forcelist` argument; a caller passing the
empty set builds a policy whose status set lacks 500 although the default
policy contains it. -/
theorem c3_counterexample_status_defaults_removable :
    500 ∈ default_sane_retry.status_forcelist ∧
    500 ∉ (sane_retry 4 ∅ ∅).status_forcelist := by
  decide

/-- C3 amended: the method set built by `sane_retry` is always a superset of
the default policy's method set, and the status set is always a superset of
the fixed urllib3 base `{413, 429, 503}` and of the caller's additional set;
the default additions `{500, 502, 503, 504}` persist only when the caller
leaves the `additional_status_forcelist` argument at its default. -/
theorem c3_amended_supersets (retries : Nat) (addStatus : Finset Nat)
    (addMethods : Finset String) :
    default_sane_retry.allowed_methods ⊆
      (sane_retry retries addStatus addMethods).allowed_methods ∧
    RETRY_AFTER_STATUS_CODES ⊆
      (sane_retry retries addStatus addMethods).status_forcelist ∧
    addStatus ⊆ (sane_retry retries addStatus addMethods).status_forcelist ∧
    addMethods ⊆ (sane_retry retries addStatus addMethods).allowed_methods ∧
    default_sane_retry.status_forcelist ⊆
      (sane_retry retries DEFAULT_ADDITIONAL_STATUS_FORCELIST
        addMethods).status_forcelist := by
  refine ⟨?_, ?_, ?_, ?_, ?_⟩
  · simp only [default_sane_retry, sane_retry, Finset.union_empty]
    exact Finset.subset_union_left
  · exact Finset.subset_union_left
  · exact Finset.subset_union_right
  · exact Finset.subset_union_right
  · simp only [default_sane_retry, sane_retry]
    exact Finset.Subset.refl _

/-- C4: with the resilient client's reported outcome as `_fetch_pmid` returns
it, `_get_pmid_abstract` yields exactly the could-not-download sentinel on
overall download failure, exactly the abstract-not-found sentinel when the
page downloads but the extractor finds no abstract section, and the extracted
text verbatim otherwise. -/
theorem c4_sentinel_selection (html_to_abstract : String → Option String)
    (pol : RetryPolicy) (tr : Transport) :
    (fetch_pmid pol tr = .ok none →
      get_pmid_abstract html_to_abstract pol tr = .ok couldNotDownloadPage) ∧
    (∀ body, fetch_pmid pol tr = .ok (some body) → html_to_abstract body = none →
      get_pmid_abstract html_to_abstract pol tr = .ok abstractNotFoundOnPage) ∧
    (∀ body text, fetch_pmid pol tr = .ok (some body) →
      html_to_abstract body = some text →
      get_pmid_abstract html_to_abstract pol tr = .ok text) := by
  refine ⟨?_, ?_, ?_⟩
  · intro h
    simp [get_pmid_abstract, h]
  · intro body h he
    simp [get_pmid_abstract, h, he]
  · intro body text h he
    simp [get_pmid_abstract, h, he]

/-- C4 witness: the three branches of `c4_sentinel_selection` realized on
concrete transports: a 404 page, a 200 page with no abstract section, and a
200 page with an abstract. -/
theorem c4_sentinel_selection_witness :
    get_pmid_abstract (fun _ => none) (sane_retry 0 ∅ ∅)
      (fun _ => .response 404 "") = .ok couldNotDownloadPage ∧
    get_pmid_abstract (fun _ => none) (sane_retry 0 ∅ ∅)
      (fun _ => .response 200 "page") = .ok abstractNotFoundOnPage ∧
    get_pmid_abstract (fun _ => some "An abstract.") (sane_retry 0 ∅ ∅)
      (fun _ => .response 200 "page") = .ok "An abstract." :=
  ⟨(c4_sentinel_selection _ _ _).1 rfl,
   (c4_sentinel_selection _ _ _).2.1 "page" rfl rfl,
   (c4_sentinel_selection _ _ _).2.2 "page" "An abstract." rfl rfl⟩

/-- C7 counterexample: the claim says the appended value is always non-empty
text, but when the extractor finds an abstract section whose text is empty
(e.g. the page contains an empty abstract div), the appended value is the
empty string. -/
theorem c7_counterexample_empty_abstract :
    update_row (fun _ => some "") (sane_retry 0 ∅ ∅)
      (fun _ => fun _ => .response 200 "<html></html>") [("PMID", "1")]
      = .ok [("PMID", "1"), (ABSTRACT_FIELDNAME, "")] :=
  rfl

/-- C7 amended: whenever `_get_pmid_abstract` returns a value, it is one of
the two sentinel strings — which are non-empty — or the extractor's text
verbatim, which may be empty. -/
theorem c7_amended_value_classification (html_to_abstract : String → Option String)
    (pol : RetryPolicy) (tr : Transport) (v : String)
    (h : get_pmid_abstract html_to_abstract pol tr = .ok v) :
    (v = couldNotDownloadPage ∨ v = abstractNotFoundOnPage ∨
      ∃ body, html_to_abstract body = some v) ∧
    couldNotDownloadPage ≠ "" ∧ abstractNotFoundOnPage ≠ "" := by
  refine ⟨?_, by decide, by decide⟩
  unfold get_pmid_abstract at h
  cases hf : fetch_pmid pol tr with
  | error e => simp only [hf] at h; simp at h
  | ok o =>
    simp only [hf] at h
    cases o with
    | none =>
      simp at h
      exact Or.inl h.symm
    | some body =>
      cases he : html_to_abstract body with
      | none =>
        simp only [he] at h
        simp at h
        exact Or.inr (Or.inl h.symm)
      | some t =>
        simp only [he] at h
        simp at h
        exact Or.inr (Or.inr ⟨body, by rw [he, h]⟩)

/-- C7 amended witness: on a concrete 404 transport the returned value is the
could-not-download sentinel, which is non-empty. -/
theorem c7_amended_value_classification_witness :
    get_pmid_abstract (fun _ => none) (sane_retry 0 ∅ ∅)
      (fun _ => .response 404 "body") = .ok couldNotDownloadPage ∧
    couldNotDownloadPage ≠ "" :=
  ⟨rfl, (c7_amended_value_classification (fun _ => none) (sane_retry 0 ∅ ∅)
    (fun _ => .response 404 "body") couldNotDownloadPage rfl).2.1⟩

/-- A transport that answers HTTP 503 on every physical attempt. -/
def always503 : Transport := fun _ => .response 503 "Service Unavailable"

lemma sessionGetGo_always503 (pol : RetryPolicy)
    (h503 : 503 ∈ pol.status_forcelist) (hget : "GET" ∈ pol.allowed_methods) :
    ∀ r i, sessionGetGo pol always503 r i = (.raises .retryError, i + r + 1) := by
  intro r
  induction r with
  | zero =>
    intro i
    simp [sessionGetGo, always503, h503, hget]
  | succ n ih =>
    intro i
    have hstep : sessionGetGo pol always503 (n + 1) i
        = sessionGetGo pol always503 n (i + 1) := by
      simp [sessionGetGo, always503, h503, hget]
    have harith : i + 1 + n + 1 = i + (n + 1) + 1 := by omega
    rw [hstep, ih (i + 1), harith]

/-- C9: if the transport returns a retry-eligible 503 on every attempt with
the policy built by `sane_retry` at base count `retries`, the transport is
consulted exactly `retries + 1` times — but the exhausted status retries then
surface as an uncaught `RetryError`, not as the could-not-download sentinel:
`_get_pmid_abstract` propagates the exception instead of degrading. -/
theorem c9_exhausted_status_retries_raise (retries : Nat) :
    sessionGet (sane_retry retries DEFAULT_ADDITIONAL_STATUS_FORCELIST ∅)
      always503 = (.raises .retryError, retries + 1) ∧
    get_pmid_abstract (fun _ => none)
      (sane_retry retries DEFAULT_ADDITIONAL_STATUS_FORCELIST ∅) always503
      = .error .retryError := by
  have h503 : 503 ∈ (sane_retry retries DEFAULT_ADDITIONAL_STATUS_FORCELIST
      ∅).status_forcelist := by
    simp only [sane_retry]
    decide
  have hget : "GET" ∈ (sane_retry retries DEFAULT_ADDITIONAL_STATUS_FORCELIST
      ∅).allowed_methods := by
    simp only [sane_retry]
    decide
  have hrun := sessionGetGo_always503 _ h503 hget retries 0
  have hsg : sessionGet (sane_retry retries DEFAULT_ADDITIONAL_STATUS_FORCELIST ∅)
      always503 = (.raises .retryError, retries + 1) := by
    unfold sessionGet
    have harith : 0 + retries + 1 = retries + 1 := by omega
    rw [show (sane_retry retries DEFAULT_ADDITIONAL_STATUS_FORCELIST ∅).total
        = retries from rfl, hrun, harith]
  refine ⟨hsg, ?_⟩
  simp [get_pmid_abstract, fetch_pmid, hsg]

/-- C10: `strip_bom` removes exactly one leading U+FEFF character from a line
that starts with one, returns any other line (including the empty line)
unchanged, and `main` maps it over every line of the input file, so the line
at any index — not only the first — is stripped. -/
theorem c10_strip_bom_every_line (lines : List (List Char)) (rest : List Char)
    (c : Char) (hc : c ≠ BOM_UTF8_decoded) :
    strip_bom (BOM_UTF8_decoded :: rest) = rest ∧
    strip_bom (c :: rest) = c :: rest ∧
    strip_bom [] = [] ∧
    (lines.map strip_bom).length = lines.length ∧
    ∀ i : Nat, (lines.map strip_bom)[i]? = (lines[i]?).map strip_bom := by
  refine ⟨by simp [strip_bom], by simp [strip_bom, hc], rfl, by simp, fun i => ?_⟩
  simp [List.getElem?_map]

/-- C10 witness: a BOM-prefixed line loses exactly its first character and a
line starting with an ordinary letter is returned unchanged. -/
theorem c10_strip_bom_every_line_witness :
    strip_bom [BOM_UTF8_decoded, 'x'] = ['x'] ∧
    strip_bom ['a', 'x'] = ['a', 'x'] := by
  have h := c10_strip_bom_every_line [] ['x'] 'a' (by decide)
  exact ⟨h.1, h.2.1⟩

/-- C2: when every row carries the identifier field and its fetch returns a
value (the exception paths are the separately reported bugs), the pipeline
finishes without aborting, emits exactly one output row per input row in the
same order, and the i-th output row is the i-th input row with the abstract
field set to the fetch result for that row's PMID. -/
theorem c2_pipeline_row_for_row (e : String → Option String) (pol : RetryPolicy)
    (tr : String → Transport) (rows : List Row)
    (hok : ∀ r ∈ rows, ∃ r', update_row e pol tr r = .ok r') :
    (runPipeline (update_row e pol tr) rows).2 = none ∧
    (runPipeline (update_row e pol tr) rows).1.length = rows.length ∧
    ∀ i : Nat, ∀ hi : i < rows.length, ∃ pmid a,
      dictGet rows[i] "PMID" = some pmid ∧
      get_pmid_abstract e pol (tr pmid) = .ok a ∧
      (runPipeline (update_row e pol tr) rows).1[i]?
        = some (dictSet rows[i] ABSTRACT_FIELDNAME a) := by
  induction rows with
  | nil =>
    exact ⟨rfl, rfl, fun i hi => absurd hi (by simp)⟩
  | cons row rest ih =>
    obtain ⟨r', hr'⟩ := hok row (List.mem_cons_self row rest)
    obtain ⟨hnone, hlen, hidx⟩ :=
      ih (fun r hr => hok r (List.mem_cons_of_mem row hr))
    have hstep : runPipeline (update_row e pol tr) (row :: rest)
        = (r' :: (runPipeline (update_row e pol tr) rest).1,
           (runPipeline (update_row e pol tr) rest).2) := by
      simp [runPipeline, hr']
    refine ⟨by rw [hstep]; exact hnone, by rw [hstep]; simp [hlen], ?_⟩
    intro i hi
    match i with
    | 0 =>
      obtain ⟨pmid, a, hp, hg, hdict⟩ := update_row_ok_elim e pol tr row r' hr'
      refine ⟨pmid, a, hp, hg, ?_⟩
      rw [hstep]
      simp only [List.getElem_cons_zero, List.getElem?_cons_zero]
      rw [← hdict]
    | Nat.succ j =>
      have hj : j < rest.length := by
        simpa using hi
      obtain ⟨pmid, a, hp, hg, hx⟩ := hidx j hj
      refine ⟨pmid, a, ?_, hg, ?_⟩
      · simpa using hp
      · rw [hstep]
        simpa using hx

/-- C2 witness: a concrete two-row run in which both fetches succeed emits
two rows and no exception. -/
theorem c2_pipeline_row_for_row_witness :
    (runPipeline (update_row (fun _ => some "A") (sane_retry 0 ∅ ∅)
      (fun _ => fun _ => .response 200 "p"))
      [[("PMID", "1")], [("PMID", "2")]]).2 = none ∧
    (runPipeline (update_row (fun _ => some "A") (sane_retry 0 ∅ ∅)
      (fun _ => fun _ => .response 200 "p"))
      [[("PMID", "1")], [("PMID", "2")]]).1.length = 2 := by
  have h := c2_pipeline_row_for_row (fun _ => some "A") (sane_retry 0 ∅ ∅)
    (fun _ => fun _ => .response 200 "p") [[("PMID", "1")], [("PMID", "2")]]
    (by
      intro r hr
      simp at hr
      rcases hr with rfl | rfl
      · exact ⟨_, rfl⟩
      · exact ⟨_, rfl⟩)
  exact ⟨h.1, h.2.1⟩

/-- C6: the output header is the input header with the abstract field name
appended exactly once at the end (so the last header entry is always the
abstract column, whatever the rows contain), and after `update_row`'s dict
assignment the abstract key holds the fetched value — also when the row
already had such a key, in which case it is overwritten — so the serialized
record's last cell is always the fetched value. -/
theorem c6_header_and_overwrite (fns : List String) (row : Row) (a : String) :
    outputFieldnames fns = fns ++ [ABSTRACT_FIELDNAME] ∧
    (outputFieldnames fns).count ABSTRACT_FIELDNAME
      = fns.count ABSTRACT_FIELDNAME + 1 ∧
    (outputFieldnames fns).getLast? = some ABSTRACT_FIELDNAME ∧
    dictGet (dictSet row ABSTRACT_FIELDNAME a) ABSTRACT_FIELDNAME = some a ∧
    (writeRow (outputFieldnames fns) (dictSet row ABSTRACT_FIELDNAME a)).getLast?
      = some a := by
  refine ⟨rfl, ?_, ?_, dictGet_dictSet row ABSTRACT_FIELDNAME a, ?_⟩
  · simp [outputFieldnames]
  · simp [outputFieldnames]
  · simp [writeRow, outputFieldnames, dictGet_dictSet]

/-- C8: a row with no PMID key makes `update_row` raise `KeyError`, and the
run aborts exactly there: rows before it are written unchanged in behaviour,
the offending row is not degraded to a sentinel, and no later row is
processed. -/
theorem c8_missing_pmid_aborts (e : String → Option String) (pol : RetryPolicy)
    (tr : String → Transport) (pre : List Row) (bad : Row) (post : List Row)
    (hpre : (runPipeline (update_row e pol tr) pre).2 = none)
    (hbad : dictGet bad "PMID" = none) :
    update_row e pol tr bad = .error .keyError ∧
    runPipeline (update_row e pol tr) (pre ++ bad :: post)
      = ((runPipeline (update_row e pol tr) pre).1, some PyExn.keyError) := by
  have hb : update_row e pol tr bad = .error .keyError := by
    unfold update_row
    rw [hbad]
  refine ⟨hb, ?_⟩
  induction pre with
  | nil =>
    simp [runPipeline, hb]
  | cons r rest ih =>
    cases hr : update_row e pol tr r with
    | error e' =>
      simp [runPipeline, hr] at hpre
    | ok r' =>
      have hpre' : (runPipeline (update_row e pol tr) rest).2 = none := by
        simp only [runPipeline, hr] at hpre
        exact hpre
      have ih' := ih hpre'
      simp only [List.cons_append, runPipeline, hr]
      simp only [List.append_eq]
      rw [ih']

/-- C8 witness: a concrete run whose second row lacks the PMID key aborts with
`KeyError` after the first row, and the third row is never reached. -/
theorem c8_missing_pmid_aborts_witness :
    runPipeline (update_row (fun _ => some "A") (sane_retry 0 ∅ ∅)
        (fun _ => fun _ => .response 200 "p"))
      ([[("PMID", "1")]] ++ [("name", "x")] :: [[("PMID", "2")]])
      = ((runPipeline (update_row (fun _ => some "A") (sane_retry 0 ∅ ∅)
          (fun _ => fun _ => .response 200 "p")) [[("PMID", "1")]]).1,
        some PyExn.keyError) :=
  (c8_missing_pmid_aborts (fun _ => some "A") (sane_retry 0 ∅ ∅)
    (fun _ => fun _ => .response 200 "p") [[("PMID", "1")]] [("name", "x")]
    [[("PMID", "2")]] rfl rfl).2
